import Mathlib

/-!
Verification of the training-loop integration layer in
`InnerEye/ML/lightning_models.py`.

The Python module defines a `LightningDataModule` subclass
(`TrainingAndValidationDataForSegmentation`) and three `LightningModule`
classes: the base `InnerEyeLightning` with the shared per-epoch and per-batch
bookkeeping, plus the two concrete families `SegmentationLightning` and
`ScalarLightning`.

The embedding below models, straight from the source:
  * the mutable instance state (timing counters, per-epoch metric history,
    the metrics accumulator, the optional random-state snapshot);
  * the lifecycle hooks `reset_timers`, `batch_start`, `on_batch_end`,
    `on_train_epoch_start`, `on_validation_epoch_start`,
    `on_train_epoch_end`, `epoch_end` and its dynamic dispatch to
    `aggregate_metrics`;
  * Python attribute lookup on `self`, via the complete list of attribute
    names that `__init__` and the methods of the class hierarchy assign,
    so that reads of never-assigned attributes (`metrics_train`,
    `metrics_val`, `train_val_params`) surface as `AttributeError`.

Wall-clock times (`time.time()`) are passed in as rational parameters; the
scalar `exp` used by softmax is passed in as a function parameter.  External
collaborators that the spec excludes (model, loss function, metric
aggregation utilities, loggers) appear as abstract total functions in an
environment record.
-/

namespace InnerEyeML

/-- The Python exception kinds this module can raise. -/
inductive PyError where
  | attributeError
  | notImplementedError
deriving DecidableEq, Repr

/-- `MAX_ITEM_LOAD_TIME_SEC = 0.5` (line 26 of the source). -/
def MAX_ITEM_LOAD_TIME_SEC : ℚ := 1/2

/-- `MAX_LOAD_TIME_WARNINGS = 3` (line 27 of the source). -/
def MAX_LOAD_TIME_WARNINGS : Nat := 3

/-- The members of `MetricType` that `lightning_models.py` uses. -/
inductive MetricType where
  | LOSS
  | DICE
  | VOXEL_COUNT
  | LEARNING_RATE
  | SECONDS_PER_EPOCH
  | PATCH_CENTER
deriving DecidableEq, Repr

/-- Modelled from the spec: `MetricsDict` lives in
`InnerEye/Common/metrics_dict.py`, which is outside the excerpt.  The spec
describes it as "a mutable metrics accumulator (keyed by metric name and an
optional hue/subgroup label)".  We record the declared hue names, the
sequence of (metric, hue, value) entries, and the names of stored
diagnostics. -/
structure MetricsDict where
  hues : List String
  entries : List (MetricType × String × ℚ)
  diagnostics : List String
deriving DecidableEq, Repr

/-- Modelled from the spec: the default hue label used when no subgroup is
given (`MetricsDict.DEFAULT_HUE_KEY` in the missing source file). -/
def MetricsDict.DEFAULT_HUE_KEY : String := "Default"

/-- A fresh accumulator with the given hue names, as built by
`MetricsDict(hues=...)`. -/
def MetricsDict.empty (hues : List String) : MetricsDict :=
  { hues := hues, entries := [], diagnostics := [] }

/-- Modelled from the spec: `add_metric` appends one (metric, hue, value)
entry to the accumulator. -/
def MetricsDict.add_metric (m : MetricsDict) (mt : MetricType) (v : ℚ)
    (hue : String) : MetricsDict :=
  { m with entries := m.entries ++ [(mt, hue, v)] }

/-- Modelled from the spec: `add_diagnostics` records a diagnostic under a
name (the stored numpy payload is external and not tracked). -/
def MetricsDict.add_diagnostics (m : MetricsDict) (n : String) : MetricsDict :=
  { m with diagnostics := m.diagnostics ++ [n] }

/-- Modelled from the spec: `get_hue_names(include_default=False)` returns
the declared hue names without the default hue. -/
def MetricsDict.get_hue_names (m : MetricsDict) (include_default : Bool) :
    List String :=
  if include_default then m.hues
  else m.hues.filter (fun h => h ≠ MetricsDict.DEFAULT_HUE_KEY)

/-- Modelled from the spec: `MetricsDict.average` is the scalar-model
aggregation method; it returns an aggregated `MetricsDict` (here: the hue
structure chosen by `across_hues`, with the accumulated entries). -/
def MetricsDict.average (m : MetricsDict) (across_hues : Bool) : MetricsDict :=
  if across_hues then
    { hues := [MetricsDict.DEFAULT_HUE_KEY], entries := m.entries,
      diagnostics := m.diagnostics }
  else m

/-- Modelled from the spec: `RandomStateSnapshot`
(`InnerEye.ML.utils.ml_util`) captures the global random-number-generator
state, which we model as a natural number. -/
structure RandomStateSnapshot where
  state : Nat
deriving DecidableEq, Repr

/-- `RandomStateSnapshot.snapshot_random_state()`: capture the current
global RNG state. -/
def snapshot_random_state (rng : Nat) : RandomStateSnapshot := ⟨rng⟩

/-- `restore_random_state`: the global RNG state after restoring the
snapshot. -/
def restore_random_state (s : RandomStateSnapshot) : Nat := s.state

/-- The mutable instance state of `InnerEyeLightning`, exactly the
attributes its `__init__` (lines 50-66) assigns.  `config` and the externally
injected `model` / `loss_fn` objects are carried by `Env` below. -/
structure LightningState where
  epoch_start_time : ℚ
  item_start_time : ℚ
  num_load_time_warnings : Nat
  num_load_time_exceeded : Nat
  num_batches : Nat
  total_extra_load_time : ℚ
  total_load_time : ℚ
  train_metrics_per_epoch : List MetricsDict
  validation_metrics_per_epoch : List MetricsDict
  metrics : MetricsDict
  random_state : Option RandomStateSnapshot
deriving DecidableEq, Repr

/-- External collaborators, abstracted as total functions: the
segmentation metric aggregation (`metrics.aggregate_segmentation_metrics`),
the scheduler's last learning rate
(`self.trainer.lr_schedulers[0]` lookup in `epoch_end`), and the global RNG
state produced by `ml_util.set_random_seed`. -/
structure Env where
  aggregate_segmentation_metrics : MetricsDict → MetricsDict
  last_lr : ℚ
  set_random_seed_result : Nat

/-- `InnerEyeLightning.reset_timers` (lines 157-164).  `t1` and `t2` are the
two `time.time()` readings. -/
def reset_timers (st : LightningState) (t1 t2 : ℚ) : LightningState :=
  { st with
    epoch_start_time := t1
    item_start_time := t2
    num_load_time_warnings := 0
    num_load_time_exceeded := 0
    total_extra_load_time := 0
    total_load_time := 0
    num_batches := 0 }

/-- `InnerEyeLightning.batch_start` (lines 133-151).  `now` is the
`time.time()` reading (`item_finish_time`).  Logging calls have no modelled
effect; the third warning branch increments `num_load_time_warnings`. -/
def batch_start (st : LightningState) (batch_idx : Nat) (is_training : Bool)
    (now : ℚ) : LightningState :=
  let item_load_time := now - st.item_start_time
  let st1 := { st with total_load_time := st.total_load_time + item_load_time }
  if batch_idx = 0 then
    -- only `logging.info` here
    st1
  else if item_load_time > MAX_ITEM_LOAD_TIME_SEC then
    let st2 := { st1 with
      num_load_time_exceeded := st1.num_load_time_exceeded + 1
      total_extra_load_time := st1.total_extra_load_time + item_load_time }
    if st2.num_load_time_warnings < MAX_LOAD_TIME_WARNINGS then
      { st2 with num_load_time_warnings := st2.num_load_time_warnings + 1 }
    else st2
  else st1

/-- `InnerEyeLightning.on_batch_end` (lines 153-155). -/
def on_batch_end (st : LightningState) (now : ℚ) : LightningState :=
  { st with item_start_time := now, num_batches := st.num_batches + 1 }

/-- `InnerEyeLightning.on_train_epoch_start` (lines 83-87): reset the
timers, then restore the random state captured at the end of the previous
epoch, if one exists.  Returns the new instance state and the new global
RNG state. -/
def on_train_epoch_start (st : LightningState) (rng : Nat) (t1 t2 : ℚ) :
    LightningState × Nat :=
  let st1 := reset_timers st t1 t2
  match st1.random_state with
  | some s => (st1, restore_random_state s)
  | none => (st1, rng)

/-- `InnerEyeLightning.on_validation_epoch_start` (lines 89-94): reset the
timers, then re-seed the global RNG via `ml_util.set_random_seed`. -/
def on_validation_epoch_start (env : Env) (st : LightningState) (t1 t2 : ℚ) :
    LightningState × Nat :=
  (reset_timers st t1 t2, env.set_random_seed_result)

/-- The attribute names assigned by `InnerEyeLightning.__init__`
(lines 50-66): every `self.X = ...` statement, in order. -/
def innerEyeInitAttrs : List String :=
  ["config", "epoch_start_time", "item_start_time", "num_load_time_warnings",
   "num_load_time_exceeded", "num_batches", "total_extra_load_time",
   "total_load_time", "train_metrics_per_epoch",
   "validation_metrics_per_epoch", "metrics", "random_state"]

/-- The attribute names assigned by the methods of `InnerEyeLightning`
(`on_train_epoch_end`, `batch_start`, `on_batch_end`, `reset_timers`). -/
def innerEyeMethodAttrs : List String :=
  ["random_state", "total_load_time", "num_load_time_exceeded",
   "total_extra_load_time", "num_load_time_warnings", "item_start_time",
   "num_batches", "epoch_start_time"]

/-- The attribute names assigned by `SegmentationLightning.__init__`
(lines 190-193) and `SegmentationLightning.epoch_start` (lines 212-213). -/
def segmentationOwnAttrs : List String := ["model", "loss_fn", "metrics"]

/-- The attribute names assigned by `ScalarLightning.__init__`
(lines 286-294). -/
def scalarOwnAttrs : List String :=
  ["model", "loss_fn", "metrics", "use_mean_teacher_model",
   "logits_to_posterior_fn"]

/-- All attribute names any constructor or method of the hierarchy assigns
on a `SegmentationLightning` instance.  (The external `LightningModule` base
class supplies framework attributes such as `trainer`, but none named
`metrics_train`, `metrics_val` or `train_val_params`.) -/
def segAllAssignedAttrs : List String :=
  innerEyeInitAttrs ++ innerEyeMethodAttrs ++ segmentationOwnAttrs

/-- All attribute names any constructor or method of the hierarchy assigns
on a `ScalarLightning` instance. -/
def scalarAllAssignedAttrs : List String :=
  innerEyeInitAttrs ++ innerEyeMethodAttrs ++ scalarOwnAttrs

/-- Python attribute lookup on `self`: reading a name that no constructor or
method ever assigned raises `AttributeError`. -/
def object_getattr (attrs : List String) (n : String) : Except PyError Unit :=
  if n ∈ attrs then Except.ok () else Except.error PyError.attributeError

/-- `InnerEyeLightning.write_metric` (lines 169-175): reads
`self.metrics_train` or `self.metrics_val` and appends the metric to it.
The success branch records into the accumulator; it is unreachable because
neither attribute name is ever assigned. -/
def write_metric (attrs : List String) (st : LightningState)
    (is_training : Bool) (metric_type : MetricType) (metric_value : ℚ)
    (hue : String) : Except PyError LightningState :=
  match object_getattr attrs
      (if is_training then "metrics_train" else "metrics_val") with
  | Except.error e => Except.error e
  | Except.ok _ =>
      Except.ok { st with
        metrics := st.metrics.add_metric metric_type metric_value hue }

/-- `InnerEyeLightning.write_loss` (lines 177-186): after the
framework-level `self.log` call (external logging, no modelled effect) it
reads `self.metrics_train` or `self.metrics_val` and appends the loss.  The
success branch is unreachable for the same reason as in `write_metric`. -/
def write_loss (attrs : List String) (st : LightningState)
    (is_training : Bool) (loss : ℚ) : Except PyError LightningState :=
  match object_getattr attrs
      (if is_training then "metrics_train" else "metrics_val") with
  | Except.error e => Except.error e
  | Except.ok _ =>
      Except.ok { st with
        metrics := st.metrics.add_metric MetricType.LOSS loss
          MetricsDict.DEFAULT_HUE_KEY }

/-- `SegmentationLightning.training_or_validation_step` (lines 225-279).
The external numeric collaborators (`CroppedSample.from_dict`, the model
forward pass, the loss function, posterior masking, dice computation and
voxel counting) are abstracted into the inputs `loss`,
`dice_for_all_classes` (one row per crop, one column per hue) and
`foreground_voxels`.  The method stores the loss, per-hue dice and voxel
counts and the patch-center diagnostics in `self.metrics`, then calls
`write_loss`. -/
def training_or_validation_step (st0 : LightningState) (is_training : Bool)
    (loss : ℚ) (dice_for_all_classes : List (List ℚ))
    (foreground_voxels : List ℚ) : Except PyError LightningState :=
  let st1 := { st0 with
    metrics := st0.metrics.add_metric MetricType.LOSS loss
      MetricsDict.DEFAULT_HUE_KEY }
  let st2 := (st1.metrics.get_hue_names false).enum.foldl
    (fun st p =>
      let st := dice_for_all_classes.foldl
        (fun st row =>
          { st with
            metrics := st.metrics.add_metric MetricType.DICE
              (row.getD p.1 0) p.2 }) st
      { st with
        metrics := st.metrics.add_metric MetricType.VOXEL_COUNT
          (foreground_voxels.getD p.1 0) p.2 }) st1
  let st3 := { st2 with metrics := st2.metrics.add_diagnostics "PatchCenter" }
  write_loss segAllAssignedAttrs st3 is_training loss

/-- `InnerEyeLightning.aggregate_metrics` (lines 166-167): the base class
raises `NotImplementedError`. -/
def innerEye_aggregate_metrics : Except PyError MetricsDict :=
  Except.error PyError.notImplementedError

/-- `SegmentationLightning.aggregate_metrics` (lines 281-282): delegate to
the external `metrics.aggregate_segmentation_metrics` on the accumulator. -/
def seg_aggregate_metrics (env : Env) (st : LightningState) :
    Except PyError MetricsDict :=
  Except.ok (env.aggregate_segmentation_metrics st.metrics)

/-- `ScalarLightning.aggregate_metrics` (lines 323-324):
`self.metrics.average(across_hues=False)`. -/
def scalar_aggregate_metrics (st : LightningState) :
    Except PyError MetricsDict :=
  Except.ok (st.metrics.average false)

/-- `InnerEyeLightning.epoch_end` (lines 96-125), parameterized by the
dynamically dispatched `self.aggregate_metrics`.  Logging and the external
`metrics.store_epoch_metrics` call have no modelled effect; the aggregated
result gets the learning rate and the epoch duration added, and is appended
to the per-epoch history list selected by `is_training`. -/
def epoch_end (agg : LightningState → Except PyError MetricsDict) (env : Env)
    (is_training : Bool) (now : ℚ) (st : LightningState) :
    Except PyError LightningState :=
  let epoch_time_seconds := now - st.epoch_start_time
  let learning_rate := env.last_lr
  match agg st with
  | Except.error e => Except.error e
  | Except.ok result0 =>
    let result1 := result0.add_metric MetricType.LEARNING_RATE learning_rate
      MetricsDict.DEFAULT_HUE_KEY
    let result := result1.add_metric MetricType.SECONDS_PER_EPOCH
      epoch_time_seconds MetricsDict.DEFAULT_HUE_KEY
    if is_training then
      Except.ok { st with
        train_metrics_per_epoch := st.train_metrics_per_epoch ++ [result] }
    else
      Except.ok { st with
        validation_metrics_per_epoch :=
          st.validation_metrics_per_epoch ++ [result] }

/-- The inherited `epoch_end` as executed on a `SegmentationLightning`
instance (dispatching to its `aggregate_metrics`). -/
def seg_epoch_end (env : Env) (is_training : Bool) (now : ℚ)
    (st : LightningState) : Except PyError LightningState :=
  epoch_end (seg_aggregate_metrics env) env is_training now st

/-- The aggregated `MetricsDict` that a segmentation epoch appends: the
aggregated accumulator with `LEARNING_RATE` and `SECONDS_PER_EPOCH` added. -/
def seg_epoch_result (env : Env) (now : ℚ) (st : LightningState) :
    MetricsDict :=
  ((env.aggregate_segmentation_metrics st.metrics).add_metric
      MetricType.LEARNING_RATE env.last_lr
      MetricsDict.DEFAULT_HUE_KEY).add_metric
    MetricType.SECONDS_PER_EPOCH (now - st.epoch_start_time)
    MetricsDict.DEFAULT_HUE_KEY

/-- `ScalarLightning.epoch_end` (lines 326-342): this override does not call
the base `epoch_end`.  Its first statement evaluates
`self.train_val_params.epoch` as an argument of
`store_metrics_per_subject`, and `train_val_params` is never assigned, so
the lookup raises `AttributeError`; nothing is appended to the per-epoch
history lists.  The success branch (per-subject storage and the optional
regression error plot, both external logging) is unreachable. -/
def scalar_epoch_end (is_training : Bool) (st : LightningState) :
    Except PyError LightningState :=
  match object_getattr scalarAllAssignedAttrs "train_val_params" with
  | Except.error e => Except.error e
  | Except.ok _ => Except.ok st

/-- `InnerEyeLightning.on_train_epoch_end` (lines 74-78): snapshot the
global RNG state into `self.random_state`, then run the dispatched
`epoch_end(is_training=True)`. -/
def on_train_epoch_end
    (epoch_end_impl : Bool → LightningState → Except PyError LightningState)
    (rng : Nat) (st : LightningState) : Except PyError LightningState :=
  epoch_end_impl true { st with random_state := some (snapshot_random_state rng) }

/-- `InnerEyeLightning.on_validation_epoch_end` (lines 80-81). -/
def on_validation_epoch_end
    (epoch_end_impl : Bool → LightningState → Except PyError LightningState)
    (st : LightningState) : Except PyError LightningState :=
  epoch_end_impl false st

/-- The slice of `SegmentationModelBase` this module reads. -/
structure SegmentationModelConfig where
  ground_truth_ids : List String
deriving DecidableEq, Repr

/-- Modelled from the spec: `BACKGROUND_CLASS_NAME` is a constant of
`InnerEye.ML.config`, outside the excerpt; only its identity matters here. -/
def BACKGROUND_CLASS_NAME : String := "background"

/-- `SegmentationLightning.epoch_start` (lines 212-213): re-initialize the
accumulator with the background hue followed by the ground-truth ids. -/
def seg_epoch_start (cfg : SegmentationModelConfig) (st : LightningState) :
    LightningState :=
  { st with
    metrics :=
      MetricsDict.empty (BACKGROUND_CLASS_NAME :: cfg.ground_truth_ids) }

/-- `SegmentationLightning.on_train_epoch_start` (lines 204-206): the
inherited hook, then `epoch_start`. -/
def seg_on_train_epoch_start (cfg : SegmentationModelConfig)
    (st : LightningState) (rng : Nat) (t1 t2 : ℚ) : LightningState × Nat :=
  let p := on_train_epoch_start st rng t1 t2
  (seg_epoch_start cfg p.1, p.2)

/-- `SegmentationLightning.on_validation_epoch_start` (lines 208-210). -/
def seg_on_validation_epoch_start (cfg : SegmentationModelConfig) (env : Env)
    (st : LightningState) (t1 t2 : ℚ) : LightningState × Nat :=
  let p := on_validation_epoch_start env st t1 t2
  (seg_epoch_start cfg p.1, p.2)

/-- Does one run of an epoch-end function append exactly one entry to the
training-epoch history list?  (What the spec asserts of every epoch end.) -/
def appends_one_epoch_result
    (f : LightningState → Except PyError LightningState)
    (st : LightningState) : Bool :=
  match f st with
  | Except.ok st2 =>
      st2.train_metrics_per_epoch.length ==
        st.train_metrics_per_epoch.length + 1
  | Except.error _ => false

/-- A concrete instance state, as left by `InnerEyeLightning.__init__` with
all timers at zero. -/
def sampleState : LightningState :=
  { epoch_start_time := 0, item_start_time := 0, num_load_time_warnings := 0,
    num_load_time_exceeded := 0, num_batches := 0,
    total_extra_load_time := 0, total_load_time := 0,
    train_metrics_per_epoch := [], validation_metrics_per_epoch := [],
    metrics := MetricsDict.empty [], random_state := none }

/-- `TrainingAndValidationDataForSegmentation`: its `data_loaders` slot,
holding an abstract handle once `setup` ran. -/
structure TrainingAndValidationDataState where
  data_loaders : Option Nat
deriving DecidableEq, Repr

/-- `TrainingAndValidationDataForSegmentation.test_dataloader`
(lines 45-46): unconditionally raise `NotImplementedError`; the body has no
assignment, so the module state is returned unchanged. -/
def test_dataloader (dm : TrainingAndValidationDataState) :
    Except PyError Nat × TrainingAndValidationDataState :=
  (Except.error PyError.notImplementedError, dm)

/-- `torch.Tensor` restricted to what `forward` needs: dimension 0 is the
batch, dimension 1 the class; trailing spatial dimensions are collapsed into
the row. -/
def Tensor : Type := List (List ℚ)

/-- `torch.nn.functional.softmax(logits, dim=1)`, with the scalar
exponential passed in as the parameter `fexp` (the float `exp` of the
library, abstracted): each class entry becomes its exponential divided by
the sum of exponentials over dimension 1. -/
def softmax_dim1 (fexp : ℚ → ℚ) (t : Tensor) : Tensor :=
  t.map (fun row => row.map (fun x => fexp x / (row.map fexp).sum))

/-- `SegmentationLightning.logits_to_posterior` (lines 198-202). -/
def logits_to_posterior (fexp : ℚ → ℚ) (logits : Tensor) : Tensor :=
  softmax_dim1 fexp logits

/-- `SegmentationLightning.forward` (lines 195-196), with the externally
created `self.model` passed as a function. -/
def seg_forward (fexp : ℚ → ℚ) (model : Tensor → Tensor)
    (patches : Tensor) : Tensor :=
  logits_to_posterior fexp (model patches)

/-- The batch-level hooks the framework can invoke within one epoch. -/
inductive BatchEvent where
  | start (batch_idx : Nat) (is_training : Bool) (now : ℚ)
  | finish (now : ℚ)
deriving Repr

/-- Dispatch one batch-level hook. -/
def apply_batch_event (st : LightningState) : BatchEvent → LightningState
  | BatchEvent.start i b now => batch_start st i b now
  | BatchEvent.finish now => on_batch_end st now

/-- Run a sequence of batch-level hooks. -/
def run_batch_events (st : LightningState) (evs : List BatchEvent) :
    LightningState :=
  evs.foldl apply_batch_event st

end InnerEyeML

namespace InnerEyeML

theorem metrics_train_not_assigned_seg :
    "metrics_train" ∉ segAllAssignedAttrs ∧
    "metrics_val" ∉ segAllAssignedAttrs := by
  constructor <;> decide

theorem metrics_train_not_assigned_scalar :
    "metrics_train" ∉ scalarAllAssignedAttrs ∧
    "metrics_val" ∉ scalarAllAssignedAttrs := by
  constructor <;> decide

theorem write_metric_always_raises (attrs : List String)
    (hts : "metrics_train" ∉ attrs) (hvs : "metrics_val" ∉ attrs)
    (st : LightningState) (is_training : Bool) (mt : MetricType) (v : ℚ)
    (hue : String) :
    write_metric attrs st is_training mt v hue =
      Except.error PyError.attributeError := by
  cases is_training <;> simp [write_metric, object_getattr, hts, hvs]

theorem write_loss_always_raises (attrs : List String)
    (hts : "metrics_train" ∉ attrs) (hvs : "metrics_val" ∉ attrs)
    (st : LightningState) (is_training : Bool) (loss : ℚ) :
    write_loss attrs st is_training loss =
      Except.error PyError.attributeError := by
  cases is_training <;> simp [write_loss, object_getattr, hts, hvs]

/-- C1: neither `metrics_train` nor `metrics_val` is ever assigned by the
class hierarchy, so every call to `write_metric` or `write_loss` — and hence
every `SegmentationLightning.training_or_validation_step`, which ends by
calling `write_loss` — raises `AttributeError` instead of recording the
metric. -/
theorem write_metric_write_loss_raise_attribute_error :
    ("metrics_train" ∉ segAllAssignedAttrs ∧
     "metrics_val" ∉ segAllAssignedAttrs ∧
     "metrics_train" ∉ scalarAllAssignedAttrs ∧
     "metrics_val" ∉ scalarAllAssignedAttrs) ∧
    (∀ (st : LightningState) (is_training : Bool) (mt : MetricType) (v : ℚ)
       (hue : String),
      write_metric segAllAssignedAttrs st is_training mt v hue =
        Except.error PyError.attributeError ∧
      write_metric scalarAllAssignedAttrs st is_training mt v hue =
        Except.error PyError.attributeError) ∧
    (∀ (st : LightningState) (is_training : Bool) (loss : ℚ),
      write_loss segAllAssignedAttrs st is_training loss =
        Except.error PyError.attributeError ∧
      write_loss scalarAllAssignedAttrs st is_training loss =
        Except.error PyError.attributeError) ∧
    (∀ (st : LightningState) (is_training : Bool) (loss : ℚ)
       (dice : List (List ℚ)) (voxels : List ℚ),
      training_or_validation_step st is_training loss dice voxels =
        Except.error PyError.attributeError) := by
  refine ⟨⟨by decide, by decide, by decide, by decide⟩, ?_, ?_, ?_⟩
  · intro st is_training mt v hue
    exact ⟨write_metric_always_raises _ (by decide) (by decide) st
        is_training mt v hue,
      write_metric_always_raises _ (by decide) (by decide) st is_training
        mt v hue⟩
  · intro st is_training loss
    exact ⟨write_loss_always_raises _ (by decide) (by decide) st is_training
        loss,
      write_loss_always_raises _ (by decide) (by decide) st is_training loss⟩
  · intro st is_training loss dice voxels
    unfold training_or_validation_step
    exact write_loss_always_raises _ (by decide) (by decide) _ is_training
      loss

/-- C3: at the start of every training epoch and of every validation epoch,
`reset_timers` zeroes `num_load_time_warnings`, `num_load_time_exceeded`,
`num_batches`, `total_extra_load_time` and `total_load_time`, and sets
`epoch_start_time` and `item_start_time` to the current `time.time()`
readings; both epoch-start hooks perform exactly this reset. -/
theorem timers_reset_at_epoch_start (env : Env) (st : LightningState)
    (rng : Nat) (t1 t2 : ℚ) :
    (reset_timers st t1 t2).num_load_time_warnings = 0 ∧
    (reset_timers st t1 t2).num_load_time_exceeded = 0 ∧
    (reset_timers st t1 t2).num_batches = 0 ∧
    (reset_timers st t1 t2).total_extra_load_time = 0 ∧
    (reset_timers st t1 t2).total_load_time = 0 ∧
    (reset_timers st t1 t2).epoch_start_time = t1 ∧
    (reset_timers st t1 t2).item_start_time = t2 ∧
    (on_train_epoch_start st rng t1 t2).1 = reset_timers st t1 t2 ∧
    (on_validation_epoch_start env st t1 t2).1 = reset_timers st t1 t2 := by
  refine ⟨rfl, rfl, rfl, rfl, rfl, rfl, rfl, ?_, rfl⟩
  unfold on_train_epoch_start
  cases h : (reset_timers st t1 t2).random_state <;> simp [h]

/-- C4: every `batch_start` call adds the measured load time
(`now - item_start_time`) to `total_load_time`; and when `batch_idx > 0` and
the load time strictly exceeds `MAX_ITEM_LOAD_TIME_SEC`, it additionally
increments `num_load_time_exceeded` by exactly one and adds the load time to
`total_extra_load_time`. -/
theorem batch_start_accounts_load_time :
    (∀ (st : LightningState) (batch_idx : Nat) (is_training : Bool) (now : ℚ),
      (batch_start st batch_idx is_training now).total_load_time =
        st.total_load_time + (now - st.item_start_time)) ∧
    (∀ (st : LightningState) (batch_idx : Nat) (is_training : Bool) (now : ℚ),
      0 < batch_idx →
      now - st.item_start_time > MAX_ITEM_LOAD_TIME_SEC →
      (batch_start st batch_idx is_training now).num_load_time_exceeded =
        st.num_load_time_exceeded + 1 ∧
      (batch_start st batch_idx is_training now).total_extra_load_time =
        st.total_extra_load_time + (now - st.item_start_time)) := by
  constructor
  · intro st batch_idx is_training now
    unfold batch_start
    by_cases h0 : batch_idx = 0
    · simp [h0]
    · by_cases hl : now - st.item_start_time > MAX_ITEM_LOAD_TIME_SEC
      · by_cases hw : st.num_load_time_warnings < MAX_LOAD_TIME_WARNINGS <;>
          simp [h0, hl, hw]
      · simp [h0, hl]
  · intro st batch_idx is_training now hpos hl
    unfold batch_start
    have h0 : ¬ batch_idx = 0 := Nat.pos_iff_ne_zero.mp hpos
    by_cases hw : st.num_load_time_warnings < MAX_LOAD_TIME_WARNINGS <;>
      simp [h0, hl, hw]

/-- Witness for C4 at a concrete state: batch index 1, previous item start
time 0, current time 1, so the load time 1 exceeds the 0.5-second limit. -/
theorem batch_start_accounts_load_time_witness :
    (batch_start
        { epoch_start_time := 0, item_start_time := 0,
          num_load_time_warnings := 0, num_load_time_exceeded := 0,
          num_batches := 0, total_extra_load_time := 0, total_load_time := 0,
          train_metrics_per_epoch := [], validation_metrics_per_epoch := [],
          metrics := MetricsDict.empty [], random_state := none }
        1 true 1).total_load_time = 0 + (1 - 0) ∧
    (batch_start
        { epoch_start_time := 0, item_start_time := 0,
          num_load_time_warnings := 0, num_load_time_exceeded := 0,
          num_batches := 0, total_extra_load_time := 0, total_load_time := 0,
          train_metrics_per_epoch := [], validation_metrics_per_epoch := [],
          metrics := MetricsDict.empty [], random_state := none }
        1 true 1).num_load_time_exceeded = 0 + 1 := by
  constructor
  · exact batch_start_accounts_load_time.1 _ 1 true 1
  · exact (batch_start_accounts_load_time.2 _ 1 true 1 (by norm_num)
      (by norm_num [MAX_ITEM_LOAD_TIME_SEC])).1

/-- C2 (counterexample): the claim asserts that at every epoch end of both
model families the aggregated `MetricsDict` is appended to the epoch history
list.  For a `ScalarLightning` model the dispatched `epoch_end` override
raises `AttributeError` on the never-assigned `train_val_params` and appends
nothing: here the concrete training epoch end on `sampleState` errors and
leaves the history length unchanged. -/
theorem scalar_epoch_end_appends_nothing_cex :
    scalar_epoch_end true sampleState = Except.error PyError.attributeError ∧
    appends_one_epoch_result (scalar_epoch_end true) sampleState = false := by
  constructor <;> rfl

/-- C2 (amended): for `SegmentationLightning`, the metrics accumulator is
re-initialized at every training and validation epoch start, and at epoch
end the aggregated `MetricsDict` is appended to the history list matching
the phase, the other list and all previously appended entries left intact;
`ScalarLightning`, by contrast, overrides `epoch_end` with a method that
reads the never-assigned `train_val_params` attribute, raises
`AttributeError`, and never appends to either history list — and the base
epoch-start hook it inherits unoverridden leaves the accumulator as is. -/
theorem seg_epoch_metrics_lifecycle (cfg : SegmentationModelConfig)
    (env : Env) (st : LightningState) (rng : Nat) (t1 t2 now : ℚ) :
    (seg_on_train_epoch_start cfg st rng t1 t2).1.metrics =
      MetricsDict.empty (BACKGROUND_CLASS_NAME :: cfg.ground_truth_ids) ∧
    (seg_on_validation_epoch_start cfg env st t1 t2).1.metrics =
      MetricsDict.empty (BACKGROUND_CLASS_NAME :: cfg.ground_truth_ids) ∧
    seg_epoch_end env true now st =
      Except.ok { st with
        train_metrics_per_epoch :=
          st.train_metrics_per_epoch ++ [seg_epoch_result env now st] } ∧
    seg_epoch_end env false now st =
      Except.ok { st with
        validation_metrics_per_epoch :=
          st.validation_metrics_per_epoch ++ [seg_epoch_result env now st] } ∧
    scalar_epoch_end true st = Except.error PyError.attributeError ∧
    scalar_epoch_end false st = Except.error PyError.attributeError ∧
    (on_train_epoch_start st rng t1 t2).1.metrics = st.metrics := by
  have hs : "train_val_params" ∉ scalarAllAssignedAttrs := by decide
  refine ⟨rfl, rfl, rfl, rfl, ?_, ?_, ?_⟩
  · simp [scalar_epoch_end, object_getattr, hs]
  · simp [scalar_epoch_end, object_getattr, hs]
  · cases h : st.random_state <;>
      simp [on_train_epoch_start, reset_timers, h]

/-- C5: `on_train_epoch_end` first stores a snapshot of the RNG state in
`self.random_state` and only then runs the epoch-end processing, which
preserves that snapshot; at the next `on_train_epoch_start` the snapshot is
restored exactly when one is present, and with `random_state = None` the
global RNG state is left untouched. -/
theorem random_state_checkpointed_across_epochs (env : Env)
    (st : LightningState) (rng : Nat) (t1 t2 now : ℚ) :
    on_train_epoch_end (fun b s => seg_epoch_end env b now s) rng st =
      seg_epoch_end env true now
        { st with random_state := some (snapshot_random_state rng) } ∧
    (match on_train_epoch_end (fun b s => seg_epoch_end env b now s) rng st
      with
      | Except.ok st2 => st2.random_state = some (snapshot_random_state rng)
      | Except.error _ => False) ∧
    (on_train_epoch_start st rng t1 t2).2 =
      (match st.random_state with
        | some s => restore_random_state s
        | none => rng) ∧
    (on_train_epoch_start st rng t1 t2).1.random_state = st.random_state ∧
    (on_train_epoch_start { st with random_state := none } rng t1 t2).2 =
      rng := by
  refine ⟨rfl, rfl, ?_, ?_, rfl⟩ <;>
    cases h : st.random_state <;>
      simp [on_train_epoch_start, reset_timers, h]

/-- C6: `TrainingAndValidationDataForSegmentation.test_dataloader` always
raises `NotImplementedError` and leaves the data module state unchanged. -/
theorem test_dataloader_raises (dm : TrainingAndValidationDataState) :
    (test_dataloader dm).1 = Except.error PyError.notImplementedError ∧
    (test_dataloader dm).2 = dm :=
  ⟨rfl, rfl⟩

/-- C7: the base-class `aggregate_metrics` raises `NotImplementedError`,
while both concrete overrides return a `MetricsDict`: the segmentation one
the external aggregation of the accumulator, the scalar one the
accumulator's hue-wise average. -/
theorem aggregate_metrics_abstract_in_base :
    innerEye_aggregate_metrics = Except.error PyError.notImplementedError ∧
    (∀ (env : Env) (st : LightningState),
      seg_aggregate_metrics env st =
        Except.ok (env.aggregate_segmentation_metrics st.metrics)) ∧
    (∀ st : LightningState,
      scalar_aggregate_metrics st = Except.ok (st.metrics.average false)) :=
  ⟨rfl, fun _ _ => rfl, fun _ => rfl⟩

/-- C8: `SegmentationLightning.forward` is the softmax along dimension 1
(the class dimension) of the model output: each class entry of the posterior
is its exponential divided by the sum of the exponentials of the entries of
its row. -/
theorem forward_is_softmax_of_model (fexp : ℚ → ℚ)
    (model : Tensor → Tensor) (patches : Tensor) :
    seg_forward fexp model patches = softmax_dim1 fexp (model patches) ∧
    seg_forward fexp model patches =
      (model patches).map
        (fun row => row.map (fun x => fexp x / (row.map fexp).sum)) :=
  ⟨rfl, rfl⟩

theorem batch_start_warnings_le (st : LightningState) (i : Nat) (b : Bool)
    (now : ℚ) (h : st.num_load_time_warnings ≤ MAX_LOAD_TIME_WARNINGS) :
    (batch_start st i b now).num_load_time_warnings ≤
      MAX_LOAD_TIME_WARNINGS := by
  unfold batch_start
  by_cases h0 : i = 0
  · simpa [h0] using h
  · by_cases hl : now - st.item_start_time > MAX_ITEM_LOAD_TIME_SEC
    · by_cases hw : st.num_load_time_warnings < MAX_LOAD_TIME_WARNINGS
      · simp [h0, hl, hw]
        exact hw
      · simpa [h0, hl, hw] using h
    · simpa [h0, hl] using h

theorem run_batch_events_warnings_le (evs : List BatchEvent)
    (st : LightningState)
    (h : st.num_load_time_warnings ≤ MAX_LOAD_TIME_WARNINGS) :
    (run_batch_events st evs).num_load_time_warnings ≤
      MAX_LOAD_TIME_WARNINGS := by
  induction evs generalizing st with
  | nil => simpa [run_batch_events] using h
  | cons ev evs ih =>
    have hstep : (apply_batch_event st ev).num_load_time_warnings ≤
        MAX_LOAD_TIME_WARNINGS := by
      cases ev with
      | start i b now => exact batch_start_warnings_le st i b now h
      | finish now => simpa [apply_batch_event, on_batch_end] using h
    simpa [run_batch_events] using ih (apply_batch_event st ev) hstep

/-- C9: starting from any epoch start (`reset_timers` zeroes the warning
counter), every sequence of `batch_start` / `on_batch_end` calls keeps
`num_load_time_warnings ≤ MAX_LOAD_TIME_WARNINGS`; and `batch_start`
increments the counter exactly when the batch is not the first, the load
time exceeds the threshold, and the counter is still strictly below the
limit. -/
theorem load_time_warnings_bounded :
    (∀ (st : LightningState) (t1 t2 : ℚ) (evs : List BatchEvent),
      (run_batch_events (reset_timers st t1 t2) evs).num_load_time_warnings ≤
        MAX_LOAD_TIME_WARNINGS) ∧
    (∀ (st : LightningState) (i : Nat) (b : Bool) (now : ℚ),
      (batch_start st i b now).num_load_time_warnings =
        (if i ≠ 0 ∧ now - st.item_start_time > MAX_ITEM_LOAD_TIME_SEC ∧
            st.num_load_time_warnings < MAX_LOAD_TIME_WARNINGS
         then st.num_load_time_warnings + 1
         else st.num_load_time_warnings)) := by
  constructor
  · intro st t1 t2 evs
    exact run_batch_events_warnings_le evs (reset_timers st t1 t2)
      (by simp [reset_timers, MAX_LOAD_TIME_WARNINGS])
  · intro st i b now
    unfold batch_start
    by_cases h0 : i = 0
    · simp [h0]
    · by_cases hl : now - st.item_start_time > MAX_ITEM_LOAD_TIME_SEC
      · by_cases hw : st.num_load_time_warnings < MAX_LOAD_TIME_WARNINGS <;>
          simp [h0, hl, hw]
      · simp [h0, hl]

/-- C10: on the first batch of an epoch (`batch_idx = 0`), `batch_start`
leaves `num_load_time_exceeded`, `total_extra_load_time` and
`num_load_time_warnings` unchanged no matter how large the load time is,
while still adding the load time to `total_load_time`. -/
theorem batch_start_first_batch_exempt (st : LightningState)
    (is_training : Bool) (now : ℚ) :
    (batch_start st 0 is_training now).num_load_time_exceeded =
      st.num_load_time_exceeded ∧
    (batch_start st 0 is_training now).total_extra_load_time =
      st.total_extra_load_time ∧
    (batch_start st 0 is_training now).num_load_time_warnings =
      st.num_load_time_warnings ∧
    (batch_start st 0 is_training now).total_load_time =
      st.total_load_time + (now - st.item_start_time) := by
  unfold batch_start
  simp

end InnerEyeML
